import Mathlib

/-!
Shallow embedding of four Kibana presentation-layer source files:

* the index-lifecycle-management edit-policy form schema (`getSchema` and its
  helper field builders),
* the security-solution detection-engine alerts REST client (`api.ts`),
* the APM request-scoped event-client assembly (`getApmEventClient`),
* the threat-match rule input React component (`ThreatMatchInputComponent`).

TypeScript objects become Lean structures, JSON values become an inductive
`Json` type, validator functions imported from external modules become tagged
constructors (their semantics are external to the sources), and asynchronous
HTTP calls become explicit request records passed to a transport oracle.
-/

/-- A JSON value, as produced by `JSON.stringify` on the plain objects the
sources build. Object fields keep insertion order, as `JSON.stringify` does. -/
inductive Json where
  | null : Json
  | bool (b : Bool) : Json
  | num (n : Int) : Json
  | str (s : String) : Json
  | arr (xs : List Json) : Json
  | obj (fields : List (String × Json)) : Json

/-! ## Lifecycle-policy form schema (`get_schema.ts`, src/unnamed/part_000) -/

/-- `PhaseWithDownsample = 'hot' | 'warm' | 'cold'` from `common/types`. -/
inductive PhaseWithDownsample where
  | hot | warm | cold
deriving DecidableEq, Repr

/-- `PhaseWithTiming = 'warm' | 'cold' | 'frozen' | 'delete'` from `common/types`. -/
inductive PhaseWithTiming where
  | warm | cold | frozen | delete
deriving DecidableEq, Repr

/-- The one serializer used by the schema, `serializers.stringToNumber`.
Its numeric semantics live in the hosting form library and are irrelevant to
the schema's shape, so it is represented by a tag. -/
inductive Serializer where
  | stringToNumber
deriving DecidableEq, Repr

/-- Validator values attached to schema fields. The validator functions are
imported from `./validations` and `fieldValidators` (external to the reviewed
sources); each application in the schema is represented by a constructor
carrying the arguments the source passes. -/
inductive Validator where
  | emptyField (message : String)
  | ifExistsNumberNonNegative
  | ifExistsNumberGreaterThanZero
  | isInteger (message : String)
  | numberGreaterThanField (message : String) (than : Int)
  | minAgeGreaterThanPreviousPhase (phase : PhaseWithTiming)
  | downsampleIntervalMultipleOfPreviousOne (phase : PhaseWithDownsample)
  | rolloverThresholdsValidator
deriving DecidableEq, Repr

/-- A form-field descriptor: the object shape the schema assigns to each leaf
field (label, default value, help text, ordered validator list, sibling paths
to re-validate on change, serializer). `none` models an absent key. -/
structure FieldDescriptor where
  label : Option String := none
  defaultValue : Option Json := none
  helpText : Option String := none
  validations : List Validator := []
  fieldsToValidateOnChange : Option (List String) := none
  serializer : Option Serializer := none

/-! External i18n message constants. The `i18nTexts` module is outside the
reviewed sources; where the source inlines `i18n.translate` the default
message is used, otherwise the `i18nTexts` key identifies the string. -/

def maxNumSegmentsFieldLabel : String := "i18nTexts.editPolicy.maxNumSegmentsFieldLabel"

def numberOfSegmentsRequiredError : String := "A value for number of segments is required."

def searchableSnapshotsRepoFieldLabel : String := "i18nTexts.editPolicy.searchableSnapshotsRepoFieldLabel"

def searchableSnapshotRepoRequired : String := "i18nTexts.editPolicy.errors.searchableSnapshotRepoRequired"

def repositoryHelpText : String := "Each phase uses the same snapshot repository."

def storageLabel : String := "Storage"

def storageHelpText : String := "Type of snapshot mounted for the searchable snapshot. This is an advanced option. Only change it if you know what you're doing."

def numberOfReplicasLabel : String := "i18nTexts.editPolicy.numberOfReplicasLabel"

def numberRequired : String := "i18nTexts.editPolicy.errors.numberRequired"

def shrinkNumberOfShardsLabel : String := "i18nTexts.editPolicy.shrinkNumberOfShardsLabel"

def numberGreatThan0Required : String := "i18nTexts.editPolicy.errors.numberGreatThan0Required"

def maxPrimaryShardSizeLabel : String := "i18nTexts.editPolicy.maxPrimaryShardSizeLabel"

def allowWriteAfterShrinkLabel : String := "i18nTexts.editPolicy.allowWriteAfterShrinkLabel"

def indexPriorityFieldLabel : String := "i18nTexts.editPolicy.indexPriorityFieldLabel"

def integerRequired : String := "i18nTexts.editPolicy.errors.integerRequired"

def downsampleEnabledFieldLabel : String := "i18nTexts.editPolicy.downsampleEnabledFieldLabel"

def downsampleIntervalFieldLabel : String := "i18nTexts.editPolicy.downsampleIntervalFieldLabel"

def bestCompressionFieldLabel : String := "i18nTexts.editPolicy.bestCompressionFieldLabel"

def readonlyEnabledFieldLabel : String := "i18nTexts.editPolicy.readonlyEnabledFieldLabel"

def allocationTypeOptionsFieldLabel : String := "i18nTexts.editPolicy.allocationTypeOptionsFieldLabel"

def allocationNodeAttributeFieldLabel : String := "i18nTexts.editPolicy.allocationNodeAttributeFieldLabel"

def maxAgeLabel : String := "i18nTexts.editPolicy.maxAgeLabel"

def maxDocsLabel : String := "i18nTexts.editPolicy.maxDocsLabel"

def maxPrimaryShardDocsLabel : String := "i18nTexts.editPolicy.maxPrimaryShardDocsLabel"

def maxSizeLabel : String := "i18nTexts.editPolicy.maxSizeLabel"

/-- `defaultIndexPriority` from `../../../constants` (external to the reviewed
sources): the documented defaults are hot 100, warm 50, cold 0. -/
def defaultIndexPriority (phase : PhaseWithDownsample) : Int :=
  match phase with
  | .hot => 100
  | .warm => 50
  | .cold => 0

/-- `CLOUD_DEFAULT_REPO` from `../constants` (external constant). -/
def CLOUD_DEFAULT_REPO : String := "found-snapshots"

/-- `Object.values(ROLLOVER_FORM_PATHS)`; `ROLLOVER_FORM_PATHS` is an external
constant mapping each rollover threshold to its form path. -/
def rolloverFormPaths : List String :=
  [ "phases.hot.actions.rollover.max_age"
  , "phases.hot.actions.rollover.max_docs"
  , "phases.hot.actions.rollover.max_primary_shard_size"
  , "phases.hot.actions.rollover.max_primary_shard_docs"
  , "phases.hot.actions.rollover.max_size" ]

/-- `maxNumSegmentsField` from the source. -/
def maxNumSegmentsField : FieldDescriptor :=
  { label := some maxNumSegmentsFieldLabel
  , validations :=
      [ Validator.emptyField numberOfSegmentsRequiredError
      , Validator.ifExistsNumberGreaterThanZero ]
  , serializer := some Serializer.stringToNumber }

/-- `searchableSnapshotFields` from the source. -/
structure SearchableSnapshotFields where
  snapshot_repository : FieldDescriptor
  storage : FieldDescriptor

def searchableSnapshotFields : SearchableSnapshotFields :=
  { snapshot_repository :=
      { label := some searchableSnapshotsRepoFieldLabel
      , validations := [Validator.emptyField searchableSnapshotRepoRequired]
      , helpText := some repositoryHelpText }
  , storage :=
      { label := some storageLabel
      , helpText := some storageHelpText } }

/-- `numberOfReplicasField` from the source. -/
def numberOfReplicasField : FieldDescriptor :=
  { label := some numberOfReplicasLabel
  , validations :=
      [ Validator.emptyField numberRequired
      , Validator.ifExistsNumberNonNegative ]
  , serializer := some Serializer.stringToNumber }

/-- `numberOfShardsField` from the source. -/
def numberOfShardsField : FieldDescriptor :=
  { label := some shrinkNumberOfShardsLabel
  , defaultValue := some (Json.num 1)
  , validations :=
      [ Validator.emptyField numberRequired
      , Validator.numberGreaterThanField numberGreatThan0Required 0 ]
  , serializer := some Serializer.stringToNumber }

/-- `shardSizeField` from the source. -/
def shardSizeField : FieldDescriptor :=
  { label := some maxPrimaryShardSizeLabel
  , validations :=
      [ Validator.emptyField numberRequired
      , Validator.numberGreaterThanField numberGreatThan0Required 0 ]
  , serializer := some Serializer.stringToNumber }

/-- `allowWriteAfterShrinkField` from the source. -/
def allowWriteAfterShrinkField : FieldDescriptor :=
  { label := some allowWriteAfterShrinkLabel
  , defaultValue := some (Json.bool false) }

/-- `getPriorityField` from the source. -/
def getPriorityField (phase : PhaseWithDownsample) : FieldDescriptor :=
  { defaultValue := some (Json.num (defaultIndexPriority phase))
  , label := some indexPriorityFieldLabel
  , validations :=
      [ Validator.emptyField numberRequired
      , Validator.ifExistsNumberNonNegative ]
  , serializer := some Serializer.stringToNumber }

/-- `getMinAgeField` from the source. The empty
`fieldsToValidateOnChange` array deliberately suppresses re-validation when
the field's own value changes. -/
def getMinAgeField (phase : PhaseWithTiming) (dv : Option String := none) : FieldDescriptor :=
  { defaultValue := dv.map Json.str
  , fieldsToValidateOnChange := some []
  , validations :=
      [ Validator.emptyField numberRequired
      , Validator.ifExistsNumberNonNegative
      , Validator.isInteger integerRequired
      , Validator.minAgeGreaterThanPreviousPhase phase ] }

/-- The ordered phase list `allPhases` local to
`getDownsampleFieldsToValidateOnChange`. -/
def allDownsamplePhases : List PhaseWithDownsample :=
  [PhaseWithDownsample.hot, PhaseWithDownsample.warm, PhaseWithDownsample.cold]

/-- `indexOf` of a downsample phase in `allPhases`. -/
def downsamplePhaseIndex (p : PhaseWithDownsample) : Nat :=
  match p with
  | .hot => 0
  | .warm => 1
  | .cold => 2

/-- `getIntervalSizePath` local to `getDownsampleFieldsToValidateOnChange`. -/
def getIntervalSizePath (currentPhase : PhaseWithDownsample) : String :=
  match currentPhase with
  | .hot => "_meta.hot.downsample.fixedIntervalSize"
  | .warm => "_meta.warm.downsample.fixedIntervalSize"
  | .cold => "_meta.cold.downsample.fixedIntervalSize"

/-- `getDownsampleFieldsToValidateOnChange` from the source: the
`fixedIntervalSize` meta paths of the given phase (when `includeCurrentPhase`)
and of all later downsample phases. -/
def getDownsampleFieldsToValidateOnChange (p : PhaseWithDownsample)
    (includeCurrentPhase : Bool := true) : List String :=
  ((allDownsamplePhases.drop
      (downsamplePhaseIndex p + (if includeCurrentPhase then 0 else 1))).map
    getIntervalSizePath)

/-- The `downsample` sub-schema shape, `FormSchema['downsample']`. -/
structure DownsampleSchema where
  enabled : FieldDescriptor
  fixedIntervalSize : FieldDescriptor
  fixedIntervalUnits : FieldDescriptor

/-- `getDownsampleSchema` from the source. -/
def getDownsampleSchema (phase : PhaseWithDownsample) : DownsampleSchema :=
  { enabled :=
      { defaultValue := some (Json.bool false)
      , label := some downsampleEnabledFieldLabel
      , fieldsToValidateOnChange :=
          some (getDownsampleFieldsToValidateOnChange phase false) }
  , fixedIntervalSize :=
      { label := some downsampleIntervalFieldLabel
      , fieldsToValidateOnChange :=
          some (getDownsampleFieldsToValidateOnChange phase)
      , validations :=
          [ Validator.emptyField numberRequired
          , Validator.ifExistsNumberGreaterThanZero
          , Validator.isInteger integerRequired
          , Validator.downsampleIntervalMultipleOfPreviousOne phase ] }
  , fixedIntervalUnits :=
      { defaultValue := some (Json.str "d")
      , fieldsToValidateOnChange :=
          some (getDownsampleFieldsToValidateOnChange phase) } }

/-! ### The full schema object returned by `getSchema` -/

structure CustomRolloverMeta where
  enabled : FieldDescriptor
  maxStorageSizeUnit : FieldDescriptor
  maxPrimaryShardSizeUnit : FieldDescriptor
  maxAgeUnit : FieldDescriptor

structure ShrinkMeta where
  isUsingShardSize : FieldDescriptor
  maxPrimaryShardSizeUnits : FieldDescriptor

structure HotMeta where
  isUsingDefaultRollover : FieldDescriptor
  customRollover : CustomRolloverMeta
  bestCompression : FieldDescriptor
  readonlyEnabled : FieldDescriptor
  shrink : ShrinkMeta
  downsample : DownsampleSchema

structure WarmMeta where
  enabled : FieldDescriptor
  minAgeUnit : FieldDescriptor
  minAgeToMilliSeconds : FieldDescriptor
  bestCompression : FieldDescriptor
  dataTierAllocationType : FieldDescriptor
  allocationNodeAttribute : FieldDescriptor
  readonlyEnabled : FieldDescriptor
  shrink : ShrinkMeta
  downsample : DownsampleSchema

structure ColdMeta where
  enabled : FieldDescriptor
  readonlyEnabled : FieldDescriptor
  minAgeUnit : FieldDescriptor
  minAgeToMilliSeconds : FieldDescriptor
  dataTierAllocationType : FieldDescriptor
  allocationNodeAttribute : FieldDescriptor
  downsample : DownsampleSchema

structure FrozenMeta where
  enabled : FieldDescriptor
  minAgeUnit : FieldDescriptor
  minAgeToMilliSeconds : FieldDescriptor
  dataTierAllocationType : FieldDescriptor
  allocationNodeAttribute : FieldDescriptor

structure DeleteMeta where
  enabled : FieldDescriptor
  minAgeUnit : FieldDescriptor
  minAgeToMilliSeconds : FieldDescriptor

structure SearchableSnapshotMeta where
  repository : FieldDescriptor

structure MetaSchema where
  hot : HotMeta
  warm : WarmMeta
  cold : ColdMeta
  frozen : FrozenMeta
  delete : DeleteMeta
  searchableSnapshot : SearchableSnapshotMeta

structure RolloverFields where
  max_age : FieldDescriptor
  max_docs : FieldDescriptor
  max_primary_shard_size : FieldDescriptor
  max_primary_shard_docs : FieldDescriptor
  max_size : FieldDescriptor

structure ForcemergeFields where
  max_num_segments : FieldDescriptor

structure ShrinkActionFields where
  number_of_shards : FieldDescriptor
  max_primary_shard_size : FieldDescriptor
  allow_write_after_shrink : FieldDescriptor

structure SetPriorityFields where
  priority : FieldDescriptor

structure AllocateFields where
  number_of_replicas : FieldDescriptor

structure WaitForSnapshotFields where
  policy : FieldDescriptor

structure DeleteActionFields where
  delete_searchable_snapshot : FieldDescriptor

structure HotActions where
  rollover : RolloverFields
  forcemerge : ForcemergeFields
  shrink : ShrinkActionFields
  set_priority : SetPriorityFields
  searchable_snapshot : SearchableSnapshotFields

structure HotPhase where
  actions : HotActions

structure WarmActions where
  allocate : AllocateFields
  shrink : ShrinkActionFields
  forcemerge : ForcemergeFields
  set_priority : SetPriorityFields

structure WarmPhase where
  min_age : FieldDescriptor
  actions : WarmActions

structure ColdActions where
  allocate : AllocateFields
  set_priority : SetPriorityFields
  searchable_snapshot : SearchableSnapshotFields

structure ColdPhase where
  min_age : FieldDescriptor
  actions : ColdActions

structure FrozenActions where
  searchable_snapshot : SearchableSnapshotFields

structure FrozenPhase where
  min_age : FieldDescriptor
  actions : FrozenActions

structure DeleteActions where
  wait_for_snapshot : WaitForSnapshotFields
  delete : DeleteActionFields

structure DeletePhase where
  min_age : FieldDescriptor
  actions : DeleteActions

structure PhasesSchema where
  hot : HotPhase
  warm : WarmPhase
  cold : ColdPhase
  frozen : FrozenPhase
  delete : DeletePhase

structure FormSchema where
  _meta : MetaSchema
  phases : PhasesSchema

/-- A rollover threshold field of the hot phase (shared shape of `max_age`,
`max_docs`, `max_primary_shard_size`, `max_primary_shard_docs`, `max_size`). -/
def rolloverThresholdField (lbl : String) (withInteger : Bool)
    (ser : Option Serializer) : FieldDescriptor :=
  { label := some lbl
  , validations :=
      [ Validator.rolloverThresholdsValidator
      , Validator.ifExistsNumberGreaterThanZero ] ++
      (if withInteger then [Validator.isInteger integerRequired] else [])
  , serializer := ser
  , fieldsToValidateOnChange := some rolloverFormPaths }

/-- `getSchema` from the source: the whole edit-policy form schema. -/
def getSchema (isCloudEnabled : Bool) : FormSchema :=
  { _meta :=
    { hot :=
      { isUsingDefaultRollover :=
          { defaultValue := some (Json.bool true)
          , label := some "Use recommended defaults" }
      , customRollover :=
        { enabled :=
            { defaultValue := some (Json.bool true)
            , label := some "Enable rollover" }
        , maxStorageSizeUnit := { defaultValue := some (Json.str "gb") }
        , maxPrimaryShardSizeUnit := { defaultValue := some (Json.str "gb") }
        , maxAgeUnit := { defaultValue := some (Json.str "d") } }
      , bestCompression := { label := some bestCompressionFieldLabel }
      , readonlyEnabled :=
          { defaultValue := some (Json.bool false)
          , label := some readonlyEnabledFieldLabel }
      , shrink :=
        { isUsingShardSize := { defaultValue := some (Json.bool false) }
        , maxPrimaryShardSizeUnits := { defaultValue := some (Json.str "gb") } }
      , downsample := getDownsampleSchema PhaseWithDownsample.hot }
    , warm :=
      { enabled :=
          { defaultValue := some (Json.bool false)
          , label := some "Activate warm phase" }
      , minAgeUnit := { defaultValue := some (Json.str "d") }
      , minAgeToMilliSeconds :=
          { defaultValue := some (Json.num (-1))
          , fieldsToValidateOnChange := some
              [ "phases.warm.min_age"
              , "phases.cold.min_age"
              , "phases.frozen.min_age"
              , "phases.delete.min_age" ] }
      , bestCompression := { label := some bestCompressionFieldLabel }
      , dataTierAllocationType := { label := some allocationTypeOptionsFieldLabel }
      , allocationNodeAttribute := { label := some allocationNodeAttributeFieldLabel }
      , readonlyEnabled :=
          { defaultValue := some (Json.bool false)
          , label := some readonlyEnabledFieldLabel }
      , shrink :=
        { isUsingShardSize := { defaultValue := some (Json.bool false) }
        , maxPrimaryShardSizeUnits := { defaultValue := some (Json.str "gb") } }
      , downsample := getDownsampleSchema PhaseWithDownsample.warm }
    , cold :=
      { enabled :=
          { defaultValue := some (Json.bool false)
          , label := some "Activate cold phase" }
      , readonlyEnabled :=
          { defaultValue := some (Json.bool false)
          , label := some readonlyEnabledFieldLabel }
      , minAgeUnit := { defaultValue := some (Json.str "d") }
      , minAgeToMilliSeconds :=
          { defaultValue := some (Json.num (-1))
          , fieldsToValidateOnChange := some
              [ "phases.cold.min_age"
              , "phases.frozen.min_age"
              , "phases.delete.min_age" ] }
      , dataTierAllocationType := { label := some allocationTypeOptionsFieldLabel }
      , allocationNodeAttribute := { label := some allocationNodeAttributeFieldLabel }
      , downsample := getDownsampleSchema PhaseWithDownsample.cold }
    , frozen :=
      { enabled :=
          { defaultValue := some (Json.bool false)
          , label := some "Activate frozen phase" }
      , minAgeUnit := { defaultValue := some (Json.str "d") }
      , minAgeToMilliSeconds :=
          { defaultValue := some (Json.num (-1))
          , fieldsToValidateOnChange := some
              [ "phases.frozen.min_age", "phases.delete.min_age" ] }
      , dataTierAllocationType := { label := some allocationTypeOptionsFieldLabel }
      , allocationNodeAttribute := { label := some allocationNodeAttributeFieldLabel } }
    , delete :=
      { enabled :=
          { defaultValue := some (Json.bool false)
          , label := some "Activate delete phase" }
      , minAgeUnit := { defaultValue := some (Json.str "d") }
      , minAgeToMilliSeconds :=
          { defaultValue := some (Json.num (-1))
          , fieldsToValidateOnChange := some ["phases.delete.min_age"] } }
    , searchableSnapshot :=
      { repository :=
          { defaultValue :=
              some (Json.str (if isCloudEnabled then CLOUD_DEFAULT_REPO else "")) } } }
  , phases :=
    { hot :=
      { actions :=
        { rollover :=
          { max_age := rolloverThresholdField maxAgeLabel true none
          , max_docs := rolloverThresholdField maxDocsLabel true (some Serializer.stringToNumber)
          , max_primary_shard_size := rolloverThresholdField maxPrimaryShardSizeLabel false none
          , max_primary_shard_docs := rolloverThresholdField maxPrimaryShardDocsLabel true (some Serializer.stringToNumber)
          , max_size := rolloverThresholdField maxSizeLabel false none }
        , forcemerge := { max_num_segments := maxNumSegmentsField }
        , shrink :=
          { number_of_shards := numberOfShardsField
          , max_primary_shard_size := shardSizeField
          , allow_write_after_shrink := allowWriteAfterShrinkField }
        , set_priority := { priority := getPriorityField PhaseWithDownsample.hot }
        , searchable_snapshot := searchableSnapshotFields } }
    , warm :=
      { min_age := getMinAgeField PhaseWithTiming.warm
      , actions :=
        { allocate := { number_of_replicas := numberOfReplicasField }
        , shrink :=
          { number_of_shards := numberOfShardsField
          , max_primary_shard_size := shardSizeField
          , allow_write_after_shrink := allowWriteAfterShrinkField }
        , forcemerge := { max_num_segments := maxNumSegmentsField }
        , set_priority := { priority := getPriorityField PhaseWithDownsample.warm } } }
    , cold :=
      { min_age := getMinAgeField PhaseWithTiming.cold
      , actions :=
        { allocate := { number_of_replicas := numberOfReplicasField }
        , set_priority := { priority := getPriorityField PhaseWithDownsample.cold }
        , searchable_snapshot := searchableSnapshotFields } }
    , frozen :=
      { min_age := getMinAgeField PhaseWithTiming.frozen
      , actions := { searchable_snapshot := searchableSnapshotFields } }
    , delete :=
      { min_age := getMinAgeField PhaseWithTiming.delete (some "365")
      , actions :=
        { wait_for_snapshot :=
            { policy := { label := some "Policy name (optional)" } }
        , delete :=
            { delete_searchable_snapshot :=
                { label := some "Delete searchable snapshot"
                , defaultValue := some (Json.bool true) } } } } } }

/-! ## Detection-engine alerts REST client (`alerts/api.ts`) -/

/-- An `AbortSignal` token; only its identity matters to this code. -/
structure Signal where
  id : Nat
deriving DecidableEq, Repr

/-- The request record a wrapper hands to `http.fetch`: path, HTTP method,
optional API version header, optional JSON body (the value passed through
`JSON.stringify`), query parameters, and the optional abort signal. -/
structure HttpRequest where
  path : String
  method : String
  version : Option String := none
  body : Option Json := none
  query : List (String × Json) := []
  signal : Option Signal := none

/-- A transport-level failure produced by the HTTP client. -/
structure HttpError where
  message : String
deriving DecidableEq, Repr

/-- The ambient `KibanaServices.get().http.fetch` transport: resolves each
request to a parsed JSON response or a rejection. -/
def HttpFetch : Type := HttpRequest → Except HttpError Json

/-- What one wrapper invocation did: the list of HTTP requests it issued and
the value its promise settled to. -/
structure ApiCall where
  requests : List HttpRequest
  result : Except HttpError Json

/-- One call to `http.fetch`: issues exactly the given request and settles to
whatever the transport returns for it. -/
def httpFetch (http : HttpFetch) (r : HttpRequest) : ApiCall :=
  { requests := [r], result := http r }

/-! URL constants imported from `common/constants` (external to the reviewed
sources); each is a fixed route string. -/

def DETECTION_ENGINE_QUERY_SIGNALS_URL : String := "/api/detection_engine/signals/search"

def DETECTION_ENGINE_SIGNALS_STATUS_URL : String := "/api/detection_engine/signals/status"

def DETECTION_ENGINE_INDEX_URL : String := "/api/detection_engine/index"

def DETECTION_ENGINE_PRIVILEGES_URL : String := "/api/detection_engine/privileges"

def ALERTS_AS_DATA_FIND_URL : String := "/internal/rac/alerts/find"

def DETECTION_ENGINE_ALERTS_INDEX_URL : String := "/api/detection_engine/signals/index"

def HOST_METADATA_GET_ROUTE : String := "/api/endpoint/metadata/\x7bid\x7d"

/-- `resolvePathVariables` from `common/utils` (external helper): substitutes
the `id` path variable, the one use this client makes of it. -/
def resolvePathVariables (path : String) (id : String) : String :=
  path.replace "\x7bid\x7d" id

/-- Modelled from the spec: `getCasesFromAlertsUrl` is imported from the cases
plugin and is absent from the reviewed sources; the spec describes it as the
cases-for-alert URL derived from the alert id. -/
def getCasesFromAlertsUrl (alertId : String) : String :=
  "/api/cases/alerts/" ++ alertId

/-- The alert workflow status values `'open' | 'closed' | 'acknowledged'`. -/
inductive AlertStatus where
  | open | closed | acknowledged
deriving DecidableEq, Repr

def alertStatusToJson (s : AlertStatus) : Json :=
  match s with
  | .open => Json.str "open"
  | .closed => Json.str "closed"
  | .acknowledged => Json.str "acknowledged"

/-- The agent type forwarded to the isolation collaborator. -/
def ResponseActionAgentType : Type := String

/-! Request builders: the exact request record each exported wrapper passes to
`http.fetch`, straight from the source's call sites. -/

def fetchQueryAlertsRequest (query : Json) (signal : Signal) : HttpRequest :=
  { path := DETECTION_ENGINE_QUERY_SIGNALS_URL
  , version := some "2023-10-31"
  , method := "POST"
  , body := some query
  , signal := some signal }

def fetchQueryRuleRegistryAlertsRequest (query : Json) (signal : Signal) : HttpRequest :=
  { path := ALERTS_AS_DATA_FIND_URL
  , method := "POST"
  , body := some query
  , signal := some signal }

def updateAlertStatusByQueryRequest (query : Json) (status : AlertStatus)
    (signal : Signal) : HttpRequest :=
  { path := DETECTION_ENGINE_SIGNALS_STATUS_URL
  , version := some "2023-10-31"
  , method := "POST"
  , body := some (Json.obj
      [ ("conflicts", Json.str "proceed")
      , ("status", alertStatusToJson status)
      , ("query", query) ])
  , signal := some signal }

def updateAlertStatusByIdsRequest (signalIds : List String) (status : AlertStatus)
    (signal : Signal) : HttpRequest :=
  { path := DETECTION_ENGINE_SIGNALS_STATUS_URL
  , version := some "2023-10-31"
  , method := "POST"
  , body := some (Json.obj
      [ ("status", alertStatusToJson status)
      , ("signal_ids", Json.arr (signalIds.map Json.str)) ])
  , signal := some signal }

def getSignalIndexRequest (signal : Signal) : HttpRequest :=
  { path := DETECTION_ENGINE_INDEX_URL
  , version := some "2023-10-31"
  , method := "GET"
  , signal := some signal }

def checkSignalIndexRequest (signal : Signal) : HttpRequest :=
  { path := DETECTION_ENGINE_ALERTS_INDEX_URL
  , version := some "1"
  , method := "GET"
  , signal := some signal }

def getUserPrivilegeRequest (signal : Signal) : HttpRequest :=
  { path := DETECTION_ENGINE_PRIVILEGES_URL
  , version := some "2023-10-31"
  , method := "GET"
  , signal := some signal }

def createSignalIndexRequest (signal : Signal) : HttpRequest :=
  { path := DETECTION_ENGINE_INDEX_URL
  , version := some "2023-10-31"
  , method := "POST"
  , signal := some signal }

def getCaseIdsFromAlertIdRequest (alertId : String) (owner : List String) : HttpRequest :=
  { path := getCasesFromAlertsUrl alertId
  , method := "get"
  , query :=
      if owner.length > 0 then [("owner", Json.arr (owner.map Json.str))] else [] }

def getHostMetadataRequest (agentId : String) (signal : Option Signal) : HttpRequest :=
  { path := resolvePathVariables HOST_METADATA_GET_ROUTE agentId
  , method := "GET"
  , signal := signal
  , version := some "2023-10-31" }

/-- The JSON body `createHostIsolation`/`createHostUnIsolation` build for the
isolation collaborator: `endpoint_ids`, the (defaulted) comment, the optional
case ids (omitted by `JSON.stringify` when undefined), and the agent type. -/
def hostIsolationBody (endpointId : String) (comment : Option String)
    (caseIds : Option (List String)) (agentType : ResponseActionAgentType) : Json :=
  Json.obj
    ([ ("endpoint_ids", Json.arr [Json.str endpointId])
     , ("comment", Json.str (comment.getD "")) ] ++
     (match caseIds with
      | some cs => [("case_ids", Json.arr (cs.map Json.str))]
      | none => []) ++
     [ ("agent_type", Json.str agentType) ])

/-- Modelled from the spec: `isolateHost` lives in
`common/lib/endpoint/endpoint_isolation`, outside the reviewed sources; per
the spec each exported wrapper performs exactly one HTTP call, so the
collaborator is a single POST of the given body to the isolation route. -/
def isolateHost (http : HttpFetch) (body : Json) : ApiCall :=
  httpFetch http
    { path := "/api/endpoint/action/isolate"
    , method := "POST"
    , version := some "2023-10-31"
    , body := some body }

/-- Modelled from the spec: `unIsolateHost`, the un-isolation counterpart of
`isolateHost`, likewise a single POST to the un-isolation route. -/
def unIsolateHost (http : HttpFetch) (body : Json) : ApiCall :=
  httpFetch http
    { path := "/api/endpoint/action/unisolate"
    , method := "POST"
    , version := some "2023-10-31"
    , body := some body }

/-! The exported wrappers themselves. -/

def fetchQueryAlerts (http : HttpFetch) (query : Json) (signal : Signal) : ApiCall :=
  httpFetch http (fetchQueryAlertsRequest query signal)

def fetchQueryRuleRegistryAlerts (http : HttpFetch) (query : Json) (signal : Signal) : ApiCall :=
  httpFetch http (fetchQueryRuleRegistryAlertsRequest query signal)

def updateAlertStatusByQuery (http : HttpFetch) (query : Json) (status : AlertStatus)
    (signal : Signal) : ApiCall :=
  httpFetch http (updateAlertStatusByQueryRequest query status signal)

def updateAlertStatusByIds (http : HttpFetch) (signalIds : List String)
    (status : AlertStatus) (signal : Signal) : ApiCall :=
  httpFetch http (updateAlertStatusByIdsRequest signalIds status signal)

def getSignalIndex (http : HttpFetch) (signal : Signal) : ApiCall :=
  httpFetch http (getSignalIndexRequest signal)

def checkSignalIndex (http : HttpFetch) (signal : Signal) : ApiCall :=
  httpFetch http (checkSignalIndexRequest signal)

def getUserPrivilege (http : HttpFetch) (signal : Signal) : ApiCall :=
  httpFetch http (getUserPrivilegeRequest signal)

def createSignalIndex (http : HttpFetch) (signal : Signal) : ApiCall :=
  httpFetch http (createSignalIndexRequest signal)

def createHostIsolation (http : HttpFetch) (endpointId : String)
    (comment : Option String) (caseIds : Option (List String))
    (agentType : ResponseActionAgentType) : ApiCall :=
  isolateHost http (hostIsolationBody endpointId comment caseIds agentType)

def createHostUnIsolation (http : HttpFetch) (endpointId : String)
    (comment : Option String) (caseIds : Option (List String))
    (agentType : ResponseActionAgentType) : ApiCall :=
  unIsolateHost http (hostIsolationBody endpointId comment caseIds agentType)

def getCaseIdsFromAlertId (http : HttpFetch) (alertId : String)
    (owner : List String) : ApiCall :=
  httpFetch http (getCaseIdsFromAlertIdRequest alertId owner)

def getHostMetadata (http : HttpFetch) (agentId : String)
    (signal : Option Signal) : ApiCall :=
  httpFetch http (getHostMetadataRequest agentId signal)

/-! ## APM request-scoped event client (`get_apm_event_client.ts`,
src/unnamed/part_001) -/

/-- `UI_SETTINGS.SEARCH_INCLUDE_FROZEN` (external constant). -/
def SEARCH_INCLUDE_FROZEN : String := "search:includeFrozen"

/-- `searchExcludedDataTiers` ui-settings key (external constant). -/
def searchExcludedDataTiers : String := "observability:searchExcludedDataTiers"

/-- An opaque scoped Elasticsearch client handle. -/
structure EsClient where
  id : Nat
deriving DecidableEq, Repr

/-- An opaque Kibana request handle. -/
structure KibanaRequest where
  id : Nat
deriving DecidableEq, Repr

/-- An opaque APM indices record, the value `getApmIndices()` resolves to. -/
structure ApmIndices where
  id : Nat
deriving DecidableEq, Repr

/-- The ambient route-handler resources `getApmEventClient` destructures:
the resolved core context (ui-settings reads and the scoped ES client), the
`getApmIndices` result, the route params' `_inspect` flag, and the request. -/
structure ApmEnv where
  uiSettingsGet : String → Json
  apmIndices : ApmIndices
  esClientAsCurrentUser : EsClient
  inspect : Bool
  request : KibanaRequest

/-- The `options` object passed to the `APMEventClient` constructor. -/
structure APMEventClientOptions where
  includeFrozen : Json
  excludedDataTiers : Json

/-- The `APMEventClient` constructor arguments (the constructor itself is
external; what this file builds is the argument record). -/
structure APMEventClient where
  esClient : EsClient
  debug : Bool
  request : KibanaRequest
  indices : ApmIndices
  options : APMEventClientOptions

/-- The value `getApmEventClient` resolves to: the client constructed from
the joined lookup results. -/
def getApmEventClient (env : ApmEnv) : APMEventClient :=
  { esClient := env.esClientAsCurrentUser
  , debug := env.inspect
  , request := env.request
  , indices := env.apmIndices
  , options :=
      { includeFrozen := env.uiSettingsGet SEARCH_INCLUDE_FROZEN
      , excludedDataTiers := env.uiSettingsGet searchExcludedDataTiers } }

/-- Completion events of the asynchronous steps inside `getApmEventClient`. -/
inductive ApmEv where
  | coreContextResolved
  | indicesLookupCompleted
  | includeFrozenLookupCompleted
  | excludedDataTiersLookupCompleted
  | clientConstructed
deriving DecidableEq, Repr

/-- Worker for `interleavings`, structurally recursive on a step budget that
covers the combined length of the two sequences. -/
def interleavingsAux : Nat → List α → List α → List (List α)
  | 0, _, _ => []
  | _ + 1, [], ys => [ys]
  | _ + 1, x :: xs, [] => [x :: xs]
  | n + 1, x :: xs, y :: ys =>
      (interleavingsAux n xs (y :: ys)).map (fun t => x :: t) ++
      (interleavingsAux n (x :: xs) ys).map (fun t => y :: t)

/-- All interleavings of two event sequences: the possible completion orders
of two promises run concurrently. -/
def interleavings (xs ys : List α) : List (List α) :=
  interleavingsAux (xs.length + ys.length) xs ys

/-- The possible event traces of one `getApmEventClient` run: the core
context resolves first; then `Promise.all` runs the indices lookup
concurrently with the ui-settings span, inside which the include-frozen read
is awaited before the excluded-data-tiers read; the client is constructed
only after the join. -/
def getApmEventClientTraces : List (List ApmEv) :=
  (interleavings [ApmEv.indicesLookupCompleted]
      [ApmEv.includeFrozenLookupCompleted, ApmEv.excludedDataTiersLookupCompleted]).map
    (fun il => ApmEv.coreContextResolved :: il ++ [ApmEv.clientConstructed])

/-! ## Threat-match input component (`threatmatch_input/index.tsx`) -/

/-- One entry of the threat-map list the builder widget edits. -/
structure ThreatMapEntry where
  id : Nat
deriving DecidableEq, Repr

/-- The slice of the `threatMapping` `FieldHook` the component reads: its
current value and the invalidity flag `getFieldValidityAndErrorMessage`
extracts. -/
structure FieldHook where
  value : List ThreatMapEntry
  isInvalid : Bool
deriving DecidableEq, Repr

/-- `field.setValue`: replaces the field's value. -/
def FieldHook.setValue (f : FieldHook) (v : List ThreatMapEntry) : FieldHook :=
  { f with value := v }

/-- The component's own React state: `useState(false)` for
`isThreatIndexPatternValid`. -/
structure ThreatMatchState where
  isThreatIndexPatternValid : Bool
deriving DecidableEq, Repr

/-- The initial state of a freshly mounted component: `useState(false)`. -/
def initialThreatMatchState : ThreatMatchState :=
  { isThreatIndexPatternValid := false }

/-- The `onValidityChange` handler the component passes to the query-bar
field: `setIsThreatIndexPatternValid`. -/
def onPatternValidityChange (s : ThreatMatchState) (v : Bool) : ThreatMatchState :=
  { s with isThreatIndexPatternValid := v }

/-- The combined validity the `useEffect` computes:
`!isThreatMappingInvalid && isThreatIndexPatternValid`. -/
def combinedValidity (threatMapping : FieldHook) (s : ThreatMatchState) : Bool :=
  !threatMapping.isInvalid && s.isThreatIndexPatternValid

/-- The values the `useEffect` reports upward on a render: one call of
`onValidityChange` with the combined validity when the callback is provided,
none otherwise. -/
def validityEffectEmissions (hasOnValidityChange : Bool)
    (threatMapping : FieldHook) (s : ThreatMatchState) : List Bool :=
  if hasOnValidityChange then [combinedValidity threatMapping s] else []

/-- The change event the builder widget emits. -/
structure BuilderChangeEvent where
  entryItems : List ThreatMapEntry
deriving DecidableEq, Repr

/-- `handleBuilderOnChange`: `setValue(entryItems)` on the parent field. -/
def handleBuilderOnChange (threatMapping : FieldHook)
    (ev : BuilderChangeEvent) : FieldHook :=
  threatMapping.setValue ev.entryItems

/-! ## Theorems -/

/-- The `min_age` descriptor of a timed phase in a schema. -/
def schemaMinAge (s : FormSchema) : PhaseWithTiming → FieldDescriptor
  | .warm => s.phases.warm.min_age
  | .cold => s.phases.cold.min_age
  | .frozen => s.phases.frozen.min_age
  | .delete => s.phases.delete.min_age

/-- The `_meta` `minAgeToMilliSeconds` descriptor of a timed phase. -/
def schemaMinAgeToMilliSeconds (s : FormSchema) : PhaseWithTiming → FieldDescriptor
  | .warm => s._meta.warm.minAgeToMilliSeconds
  | .cold => s._meta.cold.minAgeToMilliSeconds
  | .frozen => s._meta.frozen.minAgeToMilliSeconds
  | .delete => s._meta.delete.minAgeToMilliSeconds

/-- The `_meta` downsample sub-schema of a downsample phase. -/
def schemaDownsample (s : FormSchema) : PhaseWithDownsample → DownsampleSchema
  | .hot => s._meta.hot.downsample
  | .warm => s._meta.warm.downsample
  | .cold => s._meta.cold.downsample

/-- The `_meta` downsample `fixedIntervalSize` paths of a phase and of every
later downsample phase, in phase order. -/
def downsamplePathsFromPhase : PhaseWithDownsample → List String
  | .hot =>
      [ "_meta.hot.downsample.fixedIntervalSize"
      , "_meta.warm.downsample.fixedIntervalSize"
      , "_meta.cold.downsample.fixedIntervalSize" ]
  | .warm =>
      [ "_meta.warm.downsample.fixedIntervalSize"
      , "_meta.cold.downsample.fixedIntervalSize" ]
  | .cold => ["_meta.cold.downsample.fixedIntervalSize"]

/-- The same paths for the strictly later downsample phases only. -/
def downsamplePathsAfterPhase : PhaseWithDownsample → List String
  | .hot =>
      [ "_meta.warm.downsample.fixedIntervalSize"
      , "_meta.cold.downsample.fixedIntervalSize" ]
  | .warm => ["_meta.cold.downsample.fixedIntervalSize"]
  | .cold => []

/-- The `min_age` form paths of a timed phase and of every later timed phase,
in phase order. -/
def minAgePathsFromPhase : PhaseWithTiming → List String
  | .warm =>
      [ "phases.warm.min_age"
      , "phases.cold.min_age"
      , "phases.frozen.min_age"
      , "phases.delete.min_age" ]
  | .cold => ["phases.cold.min_age", "phases.frozen.min_age", "phases.delete.min_age"]
  | .frozen => ["phases.frozen.min_age", "phases.delete.min_age"]
  | .delete => ["phases.delete.min_age"]

/-- C2: in every schema `getSchema` returns, each timed phase's `min_age`
validator list is exactly required (`emptyField`), non-negative number,
integer, `minAgeGreaterThanPreviousPhase` of that phase; and each downsample
phase's `fixedIntervalSize` validator list is exactly required, greater than
zero, integer, `downsampleIntervalMultipleOfPreviousOne` of that phase. -/
theorem getSchema_validator_lists (isCloudEnabled : Bool) :
    (∀ p : PhaseWithTiming,
      (schemaMinAge (getSchema isCloudEnabled) p).validations =
        [ Validator.emptyField numberRequired
        , Validator.ifExistsNumberNonNegative
        , Validator.isInteger integerRequired
        , Validator.minAgeGreaterThanPreviousPhase p ]) ∧
    (∀ q : PhaseWithDownsample,
      (schemaDownsample (getSchema isCloudEnabled) q).fixedIntervalSize.validations =
        [ Validator.emptyField numberRequired
        , Validator.ifExistsNumberGreaterThanZero
        , Validator.isInteger integerRequired
        , Validator.downsampleIntervalMultipleOfPreviousOne q ]) := by
  constructor
  · intro p
    cases isCloudEnabled <;> cases p <;> rfl
  · intro q
    cases isCloudEnabled <;> cases q <;> rfl

/-- Replaces only the `_meta.searchableSnapshot.repository.defaultValue`
entry of a schema. -/
def setSearchableSnapshotRepoDefault (s : FormSchema) (v : Json) : FormSchema :=
  { s with _meta :=
    { s._meta with searchableSnapshot :=
      { repository :=
        { s._meta.searchableSnapshot.repository with defaultValue := some v } } } }

/-- C5: the schemas `getSchema` returns for the two values of
`isCloudEnabled` agree on every field descriptor except
`_meta.searchableSnapshot.repository.defaultValue`, which is the cloud
default repository when cloud is enabled and the empty string otherwise. -/
theorem getSchema_cloud_differs_only_in_repo_default :
    (∀ b : Bool,
      getSchema b =
        setSearchableSnapshotRepoDefault (getSchema false)
          (Json.str (if b then CLOUD_DEFAULT_REPO else ""))) ∧
    (getSchema false)._meta.searchableSnapshot.repository.defaultValue =
      some (Json.str "") ∧
    (getSchema true)._meta.searchableSnapshot.repository.defaultValue =
      some (Json.str CLOUD_DEFAULT_REPO) := by
  refine ⟨fun b => ?_, rfl, rfl⟩
  cases b <;> rfl

/-- C6: for every downsample phase, the `fixedIntervalSize` and
`fixedIntervalUnits` fields re-validate exactly the `_meta` downsample
`fixedIntervalSize` paths of that phase and of every later downsample phase,
while the `enabled` field re-validates only the strictly later ones. -/
theorem downsample_revalidation_wiring (isCloudEnabled : Bool)
    (p : PhaseWithDownsample) :
    (schemaDownsample (getSchema isCloudEnabled) p).fixedIntervalSize.fieldsToValidateOnChange =
      some (downsamplePathsFromPhase p) ∧
    (schemaDownsample (getSchema isCloudEnabled) p).fixedIntervalUnits.fieldsToValidateOnChange =
      some (downsamplePathsFromPhase p) ∧
    (schemaDownsample (getSchema isCloudEnabled) p).enabled.fieldsToValidateOnChange =
      some (downsamplePathsAfterPhase p) := by
  cases isCloudEnabled <;> cases p <;> exact ⟨rfl, rfl, rfl⟩

/-- C9: every timed phase's `min_age` descriptor carries an empty
re-validation list, while that phase's `_meta` `minAgeToMilliSeconds`
descriptor re-validates exactly the `min_age` paths of its own phase and of
every later timed phase. -/
theorem minAge_revalidation_via_milliseconds_meta (isCloudEnabled : Bool)
    (p : PhaseWithTiming) :
    (schemaMinAge (getSchema isCloudEnabled) p).fieldsToValidateOnChange = some [] ∧
    (schemaMinAgeToMilliSeconds (getSchema isCloudEnabled) p).fieldsToValidateOnChange =
      some (minAgePathsFromPhase p) := by
  cases isCloudEnabled <;> cases p <;> exact ⟨rfl, rfl⟩

/-- C3: every exported function of the alerts REST client issues exactly one
HTTP request, whose method and path are fixed (up to path-variable
substitution from its inputs), and settles to exactly what the transport
returns for that request, so responses are returned as parsed and rejections
propagate unchanged; no wrapper retries, batches, or backs off. -/
theorem alerts_api_each_function_single_call
    (http : HttpFetch) (query : Json) (signal : Signal) (signalIds : List String)
    (status : AlertStatus) (alertId : String) (owner : List String)
    (agentId : String) (optSignal : Option Signal) (endpointId : String)
    (comment : Option String) (caseIds : Option (List String))
    (agentType : ResponseActionAgentType) :
    (fetchQueryAlerts http query signal =
      { requests := [fetchQueryAlertsRequest query signal]
      , result := http (fetchQueryAlertsRequest query signal) } ∧
     (fetchQueryAlertsRequest query signal).method = "POST" ∧
     (fetchQueryAlertsRequest query signal).path = DETECTION_ENGINE_QUERY_SIGNALS_URL) ∧
    (fetchQueryRuleRegistryAlerts http query signal =
      { requests := [fetchQueryRuleRegistryAlertsRequest query signal]
      , result := http (fetchQueryRuleRegistryAlertsRequest query signal) } ∧
     (fetchQueryRuleRegistryAlertsRequest query signal).method = "POST" ∧
     (fetchQueryRuleRegistryAlertsRequest query signal).path = ALERTS_AS_DATA_FIND_URL) ∧
    (updateAlertStatusByQuery http query status signal =
      { requests := [updateAlertStatusByQueryRequest query status signal]
      , result := http (updateAlertStatusByQueryRequest query status signal) } ∧
     (updateAlertStatusByQueryRequest query status signal).method = "POST" ∧
     (updateAlertStatusByQueryRequest query status signal).path =
       DETECTION_ENGINE_SIGNALS_STATUS_URL) ∧
    (updateAlertStatusByIds http signalIds status signal =
      { requests := [updateAlertStatusByIdsRequest signalIds status signal]
      , result := http (updateAlertStatusByIdsRequest signalIds status signal) } ∧
     (updateAlertStatusByIdsRequest signalIds status signal).method = "POST" ∧
     (updateAlertStatusByIdsRequest signalIds status signal).path =
       DETECTION_ENGINE_SIGNALS_STATUS_URL) ∧
    (getSignalIndex http signal =
      { requests := [getSignalIndexRequest signal]
      , result := http (getSignalIndexRequest signal) } ∧
     (getSignalIndexRequest signal).method = "GET" ∧
     (getSignalIndexRequest signal).path = DETECTION_ENGINE_INDEX_URL) ∧
    (checkSignalIndex http signal =
      { requests := [checkSignalIndexRequest signal]
      , result := http (checkSignalIndexRequest signal) } ∧
     (checkSignalIndexRequest signal).method = "GET" ∧
     (checkSignalIndexRequest signal).path = DETECTION_ENGINE_ALERTS_INDEX_URL) ∧
    (getUserPrivilege http signal =
      { requests := [getUserPrivilegeRequest signal]
      , result := http (getUserPrivilegeRequest signal) } ∧
     (getUserPrivilegeRequest signal).method = "GET" ∧
     (getUserPrivilegeRequest signal).path = DETECTION_ENGINE_PRIVILEGES_URL) ∧
    (createSignalIndex http signal =
      { requests := [createSignalIndexRequest signal]
      , result := http (createSignalIndexRequest signal) } ∧
     (createSignalIndexRequest signal).method = "POST" ∧
     (createSignalIndexRequest signal).path = DETECTION_ENGINE_INDEX_URL) ∧
    ((createHostIsolation http endpointId comment caseIds agentType).requests.length = 1 ∧
     (createHostIsolation http endpointId comment caseIds agentType).result =
       http { path := "/api/endpoint/action/isolate"
            , method := "POST"
            , version := some "2023-10-31"
            , body := some (hostIsolationBody endpointId comment caseIds agentType) }) ∧
    ((createHostUnIsolation http endpointId comment caseIds agentType).requests.length = 1 ∧
     (createHostUnIsolation http endpointId comment caseIds agentType).result =
       http { path := "/api/endpoint/action/unisolate"
            , method := "POST"
            , version := some "2023-10-31"
            , body := some (hostIsolationBody endpointId comment caseIds agentType) }) ∧
    (getCaseIdsFromAlertId http alertId owner =
      { requests := [getCaseIdsFromAlertIdRequest alertId owner]
      , result := http (getCaseIdsFromAlertIdRequest alertId owner) } ∧
     (getCaseIdsFromAlertIdRequest alertId owner).method = "get" ∧
     (getCaseIdsFromAlertIdRequest alertId owner).path = getCasesFromAlertsUrl alertId) ∧
    (getHostMetadata http agentId optSignal =
      { requests := [getHostMetadataRequest agentId optSignal]
      , result := http (getHostMetadataRequest agentId optSignal) } ∧
     (getHostMetadataRequest agentId optSignal).method = "GET" ∧
     (getHostMetadataRequest agentId optSignal).path =
       resolvePathVariables HOST_METADATA_GET_ROUTE agentId) := by
  exact ⟨⟨rfl, rfl, rfl⟩, ⟨rfl, rfl, rfl⟩, ⟨rfl, rfl, rfl⟩, ⟨rfl, rfl, rfl⟩,
    ⟨rfl, rfl, rfl⟩, ⟨rfl, rfl, rfl⟩, ⟨rfl, rfl, rfl⟩, ⟨rfl, rfl, rfl⟩,
    ⟨rfl, rfl⟩, ⟨rfl, rfl⟩, ⟨rfl, rfl, rfl⟩, ⟨rfl, rfl, rfl⟩⟩

/-- C4: `updateAlertStatusByQuery` issues one POST to the signals status URL
whose JSON body is exactly the conflict policy `'proceed'`, the target
status, and the query, in that order; `updateAlertStatusByIds` issues one
POST to the same URL whose body is exactly the target status and the signal
id list under `signal_ids`; both requests carry the supplied abort signal. -/
theorem updateAlertStatus_requests_exact
    (http : HttpFetch) (query : Json) (status : AlertStatus) (signal : Signal)
    (signalIds : List String) :
    (updateAlertStatusByQuery http query status signal).requests =
      [ { path := DETECTION_ENGINE_SIGNALS_STATUS_URL
        , method := "POST"
        , version := some "2023-10-31"
        , body := some (Json.obj
            [ ("conflicts", Json.str "proceed")
            , ("status", alertStatusToJson status)
            , ("query", query) ])
        , signal := some signal } ] ∧
    (updateAlertStatusByIds http signalIds status signal).requests =
      [ { path := DETECTION_ENGINE_SIGNALS_STATUS_URL
        , method := "POST"
        , version := some "2023-10-31"
        , body := some (Json.obj
            [ ("status", alertStatusToJson status)
            , ("signal_ids", Json.arr (signalIds.map Json.str)) ])
        , signal := some signal } ] := by
  exact ⟨rfl, rfl⟩

/-- C8: `getCaseIdsFromAlertId` issues one GET to the cases-for-alert URL
derived from the alert id, and its query carries an `owner` parameter exactly
when the supplied owner list is non-empty. -/
theorem getCaseIdsFromAlertId_owner_query
    (http : HttpFetch) (alertId : String) (owner : List String) :
    (getCaseIdsFromAlertId http alertId owner).requests =
      [getCaseIdsFromAlertIdRequest alertId owner] ∧
    (getCaseIdsFromAlertIdRequest alertId owner).method = "get" ∧
    (getCaseIdsFromAlertIdRequest alertId owner).path = getCasesFromAlertsUrl alertId ∧
    ((∃ v, ("owner", v) ∈ (getCaseIdsFromAlertIdRequest alertId owner).query) ↔
      owner ≠ []) := by
  refine ⟨rfl, rfl, rfl, ?_⟩
  cases owner with
  | nil => simp [getCaseIdsFromAlertIdRequest]
  | cons a as => simp [getCaseIdsFromAlertIdRequest]

/-- C1: in every possible completion order of one `getApmEventClient` run,
the client is constructed only after the indices lookup and both ambient
settings lookups have completed (the settings pair running concurrently with
the indices lookup), and the constructed client's options carry exactly the
values the include-frozen and excluded-data-tiers lookups returned. -/
theorem getApmEventClient_joins_before_construction :
    (∀ t ∈ getApmEventClientTraces,
      t.getLast? = some ApmEv.clientConstructed ∧
      ApmEv.indicesLookupCompleted ∈ t.dropLast ∧
      ApmEv.includeFrozenLookupCompleted ∈ t.dropLast ∧
      ApmEv.excludedDataTiersLookupCompleted ∈ t.dropLast) ∧
    ∀ env : ApmEnv,
      (getApmEventClient env).options.includeFrozen =
        env.uiSettingsGet SEARCH_INCLUDE_FROZEN ∧
      (getApmEventClient env).options.excludedDataTiers =
        env.uiSettingsGet searchExcludedDataTiers := by
  constructor
  · decide
  · intro env
    exact ⟨rfl, rfl⟩

/-- Concrete run of C1's trace part: the completion order in which the
indices lookup finishes first is a trace of `getApmEventClient`, and in it
the client is constructed last, after all three lookups. -/
theorem getApmEventClient_joins_before_construction_witness :
    [ ApmEv.coreContextResolved, ApmEv.indicesLookupCompleted
    , ApmEv.includeFrozenLookupCompleted, ApmEv.excludedDataTiersLookupCompleted
    , ApmEv.clientConstructed ].getLast? = some ApmEv.clientConstructed ∧
    ApmEv.indicesLookupCompleted ∈
      ([ ApmEv.coreContextResolved, ApmEv.indicesLookupCompleted
       , ApmEv.includeFrozenLookupCompleted, ApmEv.excludedDataTiersLookupCompleted
       , ApmEv.clientConstructed ] : List ApmEv).dropLast ∧
    ApmEv.includeFrozenLookupCompleted ∈
      ([ ApmEv.coreContextResolved, ApmEv.indicesLookupCompleted
       , ApmEv.includeFrozenLookupCompleted, ApmEv.excludedDataTiersLookupCompleted
       , ApmEv.clientConstructed ] : List ApmEv).dropLast ∧
    ApmEv.excludedDataTiersLookupCompleted ∈
      ([ ApmEv.coreContextResolved, ApmEv.indicesLookupCompleted
       , ApmEv.includeFrozenLookupCompleted, ApmEv.excludedDataTiersLookupCompleted
       , ApmEv.clientConstructed ] : List ApmEv).dropLast :=
  getApmEventClient_joins_before_construction.1
    [ ApmEv.coreContextResolved, ApmEv.indicesLookupCompleted
    , ApmEv.includeFrozenLookupCompleted, ApmEv.excludedDataTiersLookupCompleted
    , ApmEv.clientConstructed ] (by decide)

/-- C7: whenever an `onValidityChange` callback is provided, the component's
effect invokes it once per render with the conjunction of the two
sub-validities, which is `true` exactly when the threat mapping field is not
invalid and the threat index pattern query is valid; and a builder change
event sets the parent form field's value to the emitted entry items. -/
theorem threatMatchInput_validity_and_builder_change
    (threatMapping : FieldHook) (s : ThreatMatchState) (ev : BuilderChangeEvent) :
    validityEffectEmissions true threatMapping s =
      [combinedValidity threatMapping s] ∧
    (combinedValidity threatMapping s = true ↔
      (threatMapping.isInvalid = false ∧ s.isThreatIndexPatternValid = true)) ∧
    (handleBuilderOnChange threatMapping ev).value = ev.entryItems ∧
    validityEffectEmissions false threatMapping s = [] := by
  refine ⟨rfl, ?_, rfl, rfl⟩
  simp [combinedValidity]

/-- C10: on first render the threat-index-pattern validity state is
initialized to `false`, so the first report a provided `onValidityChange`
callback receives is `false` no matter whether the threat mapping field is
valid. -/
theorem threatMatchInput_first_report_false (threatMapping : FieldHook) :
    validityEffectEmissions true threatMapping initialThreatMatchState = [false] := by
  simp [validityEffectEmissions, combinedValidity, initialThreatMatchState]
